import Mathlib

/-!
Shallow embedding of the HomematicIP platform core (HmIPPlatform.ts):
the reconciliation engine that performs an initial snapshot pass,
binds devices to accessories, and applies push notifications to the
topology store, the group store and the device binding table.

JavaScript objects keyed by strings and ES6 Maps are embedded as
association lists with set / delete / get mirroring their semantics;
in-place mutation of shared objects is embedded as explicit state
passing; external side effects (registration, unregistration, update
dispatches, log lines, network calls) are recorded in an effect trace.
-/

namespace HmIP

/-- A home entity as delivered by the hub (HmIPHome), restricted to the
fields the platform core reads or writes. -/
structure HmIPHome where
  id : String
  oem : String
  modelType : String
  firmwareVersion : String
  currentAPVersion : String
deriving DecidableEq, Repr

/-- A group entity (HmIPGroup); its payload is opaque to the core. -/
structure HmIPGroup where
  id : String
  payload : String
deriving DecidableEq, Repr

/-- A device entity (HmIPDevice), restricted to the fields the platform
core reads; the remaining payload is opaque. -/
structure HmIPDevice where
  id : String
  type : String
  label : String
  modelType : String
  payload : String
deriving DecidableEq, Repr

/-- The full-state snapshot (HmIPState): home, groups map, devices map.
JavaScript objects keyed by id become association lists. -/
structure HmIPState where
  home : HmIPHome
  groups : List (String × HmIPGroup)
  devices : List (String × HmIPDevice)
deriving DecidableEq, Repr

/-- A homebridge PlatformAccessory: display name, UUID, and the stored
device context (accessory.context.device). -/
structure PlatformAccessory where
  displayName : String
  UUID : String
  context : Option HmIPDevice
deriving DecidableEq, Repr

/-- The wrapper returned by createAccessory (HmIPAccessory): the
underlying accessory and whether it pre-existed in the cache
(existingAccessory != null). -/
structure HmIPAccessory where
  accessory : PlatformAccessory
  isExisting : Bool
deriving DecidableEq, Repr

/-- The concrete behavior bound for a supported device type: the three
constructors dispatched in updateAccessory. -/
inductive BehaviorKind where
  | thermostat
  | shutter
  | accessPoint
deriving DecidableEq, Repr

/-- A bound device handle (HmIPGenericDevice as used by the platform):
the behavior kind, the home reference passed to its constructor and
later reassigned on home-changed, and the accessory it wraps. -/
structure BoundDevice where
  kind : BehaviorKind
  home : Option HmIPHome
  accessory : PlatformAccessory
deriving DecidableEq, Repr

/-- Push event kinds (pushEventType). -/
inductive PushEventType where
  | GROUP_CHANGED
  | GROUP_ADDED
  | GROUP_REMOVED
  | DEVICE_REMOVED
  | DEVICE_CHANGED
  | DEVICE_ADDED
  | HOME_CHANGED
  | other (s : String)
deriving DecidableEq, Repr

/-- One event of a push notification envelope. -/
structure HmIPEvent where
  pushEventType : PushEventType
  group : Option HmIPGroup
  device : Option HmIPDevice
  home : Option HmIPHome
deriving DecidableEq, Repr

/-- An argument as passed positionally to an updateDevice dispatch.
The home-changed branch passes the bound handle itself in the first
(home) position, so handles are possible arguments. -/
inductive UpdateArg where
  | homeArg (h : Option HmIPHome)
  | deviceArg (d : HmIPDevice)
  | handleArg (b : BoundDevice)
  | groupsArg (g : List (String × HmIPGroup))
deriving DecidableEq, Repr

/-- Externally observable side effects of the platform core, in order.
Modelled from the spec: the register method of HmIPAccessory and the
unregisterPlatformAccessories call are the external (idempotent)
registration boundary and are recorded as registerAccessory and
unregisterAccessory; updateDevice dispatches on bound behaviors are
recorded as updateDispatch with the positional arguments passed. -/
inductive Effect where
  | apiCall (path : String)
  | connectWs
  | registerAccessory (a : PlatformAccessory)
  | unregisterAccessory (a : PlatformAccessory)
  | updateDispatch (id : String) (target : BoundDevice) (args : List UpdateArg)
  | warn (msg : String)
  | debugGroupEvent (ty : PushEventType) (gid : String)
  | debugDeviceEvent (ty : PushEventType) (did : String) (modelType : String)
  | debugHomeChanged (h : HmIPHome)
  | debugCreating (d : HmIPDevice)
  | debugPool
  | debugUnhandled (s : String)
  | infoLoadingFromCache (displayName : String)
deriving DecidableEq, Repr

/-- The platform object state: the restored accessory cache
(this.accessories), the group store (this.groups), the home field
(this.home, declared with a definite-assignment assertion and never
assigned, hence an Option that stays none), and the device binding
table (this.deviceMap). -/
structure PlatformState where
  accessories : List PlatformAccessory
  groups : List (String × HmIPGroup)
  home : Option HmIPHome
  deviceMap : List (String × BoundDevice)
deriving DecidableEq, Repr

/-- The state visible to the notification handler: the snapshot object
captured by the closure (hmIPState) and the platform object. -/
structure ReconState where
  hmIPState : HmIPState
  platform : PlatformState
deriving DecidableEq, Repr

/-- JavaScript keyed assignment m[k] = v: replace the entry for k if
present, otherwise append a new entry. -/
def mapSet {α : Type} : List (String × α) → String → α → List (String × α)
  | [], k, v => [(k, v)]
  | p :: rest, k, v => if p.1 == k then (k, v) :: rest else p :: mapSet rest k v

/-- JavaScript delete m[k] / Map.delete: drop all entries for k. -/
def mapDelete {α : Type} (m : List (String × α)) (k : String) : List (String × α) :=
  m.filter (fun p => p.1 != k)

/-- JavaScript m[k] / Map.get: the value stored at k, if any. -/
def mapGet {α : Type} (m : List (String × α)) (k : String) : Option α :=
  (m.find? (fun p => p.1 == k)).map (fun p => p.2)

/-- Map.has: whether an entry for k exists. -/
def mapHas {α : Type} (m : List (String × α)) (k : String) : Bool :=
  m.any (fun p => p.1 == k)

/-- Modelled from the spec: the external Accessory Identity Cache
derivation api.hap.uuid.generate, a deterministic id-to-identity
mapping (same device identity always yields the same accessory
identity); embedded as an injective tagging of the id. -/
def uuidGenerate (id : String) : String :=
  "uuid:" ++ id

/-- getAccessory: look up a restored accessory by UUID in the cache. -/
def getAccessory (accessories : List PlatformAccessory) (uuid : String) :
    Option PlatformAccessory :=
  accessories.find? (fun a => a.UUID == uuid)

/-- configureAccessory: invoked by homebridge for each accessory
restored from disk; pushes it into the cache unless already present. -/
def configureAccessory (s : PlatformState) (accessory : PlatformAccessory) :
    PlatformState × List Effect :=
  match getAccessory s.accessories accessory.UUID with
  | some _ => (s, [])
  | none =>
      ({ s with accessories := s.accessories ++ [accessory] },
       [Effect.infoLoadingFromCache accessory.displayName])

/-- The platform state as it stands after the constructor ran and
homebridge restored the cached accessories through configureAccessory:
empty group store, unassigned home, empty device binding table. -/
def restoredPlatform (cached : List PlatformAccessory) : PlatformState :=
  cached.foldl (fun s a => (configureAccessory s a).1)
    { accessories := [], groups := [], home := none, deviceMap := [] }

/-- createAccessory: reuse a cached accessory for the uuid if present
(overwriting its stored device context, an in-place mutation embedded
as replacing the cache entry), otherwise construct a fresh accessory
from displayName and uuid; the fresh accessory is not added to the
cache. Returns the updated state, the HmIPAccessory wrapper, and the
log trace. -/
def createAccessory (s : PlatformState) (uuid : String) (displayName : String)
    (deviceContext : HmIPDevice) : PlatformState × HmIPAccessory × List Effect :=
  match getAccessory s.accessories uuid with
  | some existingAccessory =>
      let updated : PlatformAccessory := { existingAccessory with context := some deviceContext }
      ({ s with accessories :=
           s.accessories.map (fun b => if b.UUID == uuid then updated else b) },
       { accessory := updated, isExisting := true }, [])
  | none =>
      (s,
       { accessory := { displayName := displayName, UUID := uuid, context := some deviceContext },
         isExisting := false },
       [Effect.debugPool])

/-- setHome: normalize a home in place (oem, modelType, firmwareVersion
derived from currentAPVersion) and hand it to updateHomeAccessories,
whose body is commented out. The platform home field is not assigned. -/
def setHome (home : HmIPHome) : HmIPHome :=
  { home with
    oem := "eQ-3"
    modelType := "HmIPHome"
    firmwareVersion := home.currentAPVersion }

/-- updateAccessory: resolve the accessory for the device id, dispatch
on the declared device type; if supported, bind a handle into the
device binding table and register the accessory; otherwise warn and
skip. -/
def updateAccessory (s : PlatformState) (id : String) (home : Option HmIPHome)
    (device : HmIPDevice) : PlatformState × List Effect :=
  let uuid := uuidGenerate id
  let res := createAccessory s uuid device.label device
  let s1 := res.1
  let hmIPAccessory := res.2.1
  let eff1 := res.2.2
  let homebridgeDevice : Option (BoundDevice × List Effect) :=
    if device.type == "WALL_MOUNTED_THERMOSTAT_PRO" then
      some ({ kind := .thermostat, home := home, accessory := hmIPAccessory.accessory }, [])
    else if device.type == "FULL_FLUSH_SHUTTER" then
      some ({ kind := .shutter, home := home, accessory := hmIPAccessory.accessory }, [])
    else if device.type == "HOME_CONTROL_ACCESS_POINT" then
      some ({ kind := .accessPoint, home := home, accessory := hmIPAccessory.accessory },
            [Effect.debugCreating device])
    else
      none
  match homebridgeDevice with
  | none =>
      (s1, eff1 ++ [Effect.warn ("Device not implemented: " ++ device.modelType
                                  ++ " - " ++ device.label)])
  | some (hb, eff2) =>
      ({ s1 with deviceMap := mapSet s1.deviceMap id hb },
       eff1 ++ eff2 ++ [Effect.registerAccessory hmIPAccessory.accessory])

/-- The device loop of the snapshot pass: updateAccessory for each
device of the snapshot, reading this.home at each iteration. -/
def updateAccessories (s : PlatformState) :
    List (String × HmIPDevice) → PlatformState × List Effect
  | [] => (s, [])
  | (id, device) :: rest =>
      let r1 := updateAccessory s id s.home device
      let r2 := updateAccessories r1.1 rest
      (r2.1, r1.2 ++ r2.2)

/-- The snapshot half of discoverDevices: this.groups = hmIPState.groups,
this.setHome(hmIPState.home) (mutating the snapshot home in place,
assigning nothing to this.home), then the device loop. -/
def snapshotPass (p : PlatformState) (hmIPState : HmIPState) :
    ReconState × List Effect :=
  let p0 := { p with groups := hmIPState.groups }
  let st := { hmIPState with home := setHome hmIPState.home }
  let r := updateAccessories p0 st.devices
  ({ hmIPState := st, platform := r.1 }, r.2)

/-- The body of the notification callback for a single event: the
switch on pushEventType. Group events upsert or delete in both the
captured snapshot groups and this.groups; device-removed unregisters
and deletes on a known id and warns otherwise; device-changed and
device-added dispatch updateDevice(this.home, event.device,
this.groups) on a known id and warn otherwise; home-changed normalizes
the event home in place, reassigns each bound handle's home field and
dispatches updateDevice(device, this.groups) with the handle itself in
the home position; other kinds only log. -/
def handleEvent (r : ReconState) (event : HmIPEvent) : ReconState × List Effect :=
  match event.pushEventType with
  | .GROUP_CHANGED | .GROUP_ADDED =>
      match event.group with
      | some g =>
          ({ r with
             hmIPState := { r.hmIPState with groups := mapSet r.hmIPState.groups g.id g }
             platform := { r.platform with groups := mapSet r.platform.groups g.id g } },
           [Effect.debugGroupEvent event.pushEventType g.id])
      | none => (r, [])
  | .GROUP_REMOVED =>
      match event.group with
      | some g =>
          ({ r with
             hmIPState := { r.hmIPState with groups := mapDelete r.hmIPState.groups g.id }
             platform := { r.platform with groups := mapDelete r.platform.groups g.id } },
           [Effect.debugGroupEvent event.pushEventType g.id])
      | none => (r, [])
  | .DEVICE_REMOVED =>
      match event.device with
      | some d =>
          match mapGet r.platform.deviceMap d.id with
          | some hmIPDevice =>
              ({ r with
                 hmIPState := { r.hmIPState with devices := mapDelete r.hmIPState.devices d.id }
                 platform := { r.platform with deviceMap := mapDelete r.platform.deviceMap d.id } },
               [Effect.debugDeviceEvent event.pushEventType d.id d.modelType,
                Effect.unregisterAccessory hmIPDevice.accessory])
          | none =>
              (r, [Effect.debugDeviceEvent event.pushEventType d.id d.modelType,
                   Effect.warn ("Cannot find device: " ++ d.id)])
      | none => (r, [])
  | .DEVICE_CHANGED | .DEVICE_ADDED =>
      match event.device with
      | some d =>
          match mapGet r.platform.deviceMap d.id with
          | some hb =>
              (r, [Effect.debugDeviceEvent event.pushEventType d.id d.modelType,
                   Effect.updateDispatch d.id hb
                     [UpdateArg.homeArg r.platform.home, UpdateArg.deviceArg d,
                      UpdateArg.groupsArg r.platform.groups]])
          | none =>
              (r, [Effect.debugDeviceEvent event.pushEventType d.id d.modelType,
                   Effect.warn ("Cannot find device: " ++ d.id)])
      | none => (r, [])
  | .HOME_CHANGED =>
      match event.home with
      | some h =>
          let h2 := setHome h
          let newMap := r.platform.deviceMap.map (fun e => (e.1, { e.2 with home := some h2 }))
          ({ r with platform := { r.platform with deviceMap := newMap } },
           Effect.debugHomeChanged h ::
             newMap.map (fun e =>
               Effect.updateDispatch e.1 e.2
                 [UpdateArg.handleArg e.2, UpdateArg.groupsArg r.platform.groups]))
      | none => (r, [])
  | .other s => (r, [Effect.debugUnhandled s])

/-- The for-in loop over the events of one notification envelope. -/
def handleEvents (r : ReconState) : List HmIPEvent → ReconState × List Effect
  | [] => (r, [])
  | e :: rest =>
      let r1 := handleEvent r e
      let r2 := handleEvents r1.1 rest
      (r2.1, r1.2 ++ r2.2)

/-- The subscription: each delivered message is parsed into an event
envelope and its events are handled in order. -/
def runMessages (r : ReconState) : List (List HmIPEvent) → ReconState × List Effect
  | [] => (r, [])
  | msg :: rest =>
      let r1 := handleEvents r msg
      let r2 := runMessages r1.1 rest
      (r2.1, r1.2 ++ r2.2)

/-- discoverDevices: abort if session initialization failed; otherwise
fetch the snapshot, run the snapshot pass, subscribe, and process the
delivered messages. Returns the platform state, the final snapshot
object when one was fetched, and the effect trace. -/
def discoverDevices (initOk : Bool) (p : PlatformState) (snapshot : HmIPState)
    (msgs : List (List HmIPEvent)) : PlatformState × Option HmIPState × List Effect :=
  if initOk then
    let r1 := snapshotPass p snapshot
    let r2 := runMessages r1.1 msgs
    (r2.1.platform, some r2.1.hmIPState,
     Effect.apiCall "home/getCurrentState" :: r1.2 ++ Effect.connectWs :: r2.2)
  else (p, none, [])

/-- The external registration calls of a trace, in order. -/
def registerCalls (effs : List Effect) : List PlatformAccessory :=
  effs.filterMap (fun e =>
    match e with
    | .registerAccessory a => some a
    | _ => none)

/-- The external unregistration calls of a trace, in order. -/
def unregCalls (effs : List Effect) : List PlatformAccessory :=
  effs.filterMap (fun e =>
    match e with
    | .unregisterAccessory a => some a
    | _ => none)

/-- The invariant maintained on the device binding table: keys are
unique and every bound handle wraps the accessory whose UUID is
derived from its own device id. -/
def dmapInv (dm : List (String × BoundDevice)) : Prop :=
  (dm.map Prod.fst).Nodup ∧ ∀ e ∈ dm, e.2.accessory.UUID = uuidGenerate e.1

/-- Sample device of the supported shutter type. -/
def shutterDev : HmIPDevice :=
  { id := "d1", type := "FULL_FLUSH_SHUTTER", label := "Shutter",
    modelType := "HmIP-BROLL", payload := "p1" }

/-- Sample device of an unsupported type. -/
def unknownDev : HmIPDevice :=
  { id := "d2", type := "SOME_UNKNOWN_TYPE", label := "Lamp",
    modelType := "HmIP-X", payload := "p2" }

/-- Sample accessory wrapping the shutter device id. -/
def sampleAccessory : PlatformAccessory :=
  { displayName := "Shutter", UUID := uuidGenerate "d1", context := none }

/-- Sample bound handle for the shutter device. -/
def sampleHandle : BoundDevice :=
  { kind := .shutter, home := none, accessory := sampleAccessory }

/-- Sample snapshot home with access-point version 1.0. -/
def snapHome : HmIPHome :=
  { id := "h1", oem := "o", modelType := "m", firmwareVersion := "f",
    currentAPVersion := "1.0" }

/-- Sample home payload of a home-changed event, access-point version 2.0. -/
def homeV2 : HmIPHome :=
  { id := "h1", oem := "someOem", modelType := "someModel",
    firmwareVersion := "1.0", currentAPVersion := "2.0" }

/-- Sample reconciliation state with the shutter device bound. -/
def sampleRecon : ReconState :=
  { hmIPState := { home := snapHome, groups := [], devices := [("d1", shutterDev)] }
    platform := { accessories := [], groups := [], home := none,
                  deviceMap := [("d1", sampleHandle)] } }

/-- Sample snapshot holding exactly the shutter device. -/
def sampleSnapshot : HmIPState :=
  { home := snapHome, groups := [], devices := [("d1", shutterDev)] }

/-- Sample device contexts used to exercise accessory resolution. -/
def ctxA : HmIPDevice :=
  { id := "x", type := "T", label := "L", modelType := "M", payload := "ctx1" }

/-- A second, different sample device context. -/
def ctxB : HmIPDevice :=
  { id := "x", type := "T", label := "L", modelType := "M", payload := "ctx2" }

/-- The platform state with nothing restored from disk. -/
def emptyPlatform : PlatformState :=
  { accessories := [], groups := [], home := none, deviceMap := [] }

/-- Sample group payloads sharing one identity. -/
def groupA : HmIPGroup := { id := "g1", payload := "ga" }

/-- A second group payload for the same identity. -/
def groupB : HmIPGroup := { id := "g1", payload := "gb" }

/-- A sample accessory restored from disk for uuid u1. -/
def cachedAcc : PlatformAccessory :=
  { displayName := "Old", UUID := "u1", context := none }

/-- A platform state whose cache holds exactly cachedAcc. -/
def cachedPlatform : PlatformState :=
  { accessories := [cachedAcc], groups := [], home := none, deviceMap := [] }

/-- A sample cached accessory for the unsupported device id d2. -/
def c10Acc : PlatformAccessory :=
  { displayName := "Lamp", UUID := uuidGenerate "d2", context := none }

/-- A platform state whose cache holds exactly c10Acc. -/
def c10Platform : PlatformState :=
  { accessories := [c10Acc], groups := [], home := none, deviceMap := [] }

/-- A device-removed event for the shutter device. -/
def removeEvent : HmIPEvent :=
  { pushEventType := .DEVICE_REMOVED, group := none, device := some shutterDev,
    home := none }

/-- A device-changed event for a device that was never bound. -/
def changedEventUnknown : HmIPEvent :=
  { pushEventType := .DEVICE_CHANGED, group := none, device := some unknownDev,
    home := none }

/-- A home-changed event carrying the version 2.0 home. -/
def homeChangedEvent : HmIPEvent :=
  { pushEventType := .HOME_CHANGED, group := none, device := none,
    home := some homeV2 }

/-- A group-added event carrying the first payload for g1. -/
def groupEventA : HmIPEvent :=
  { pushEventType := .GROUP_ADDED, group := some groupA, device := none,
    home := none }

/-- A group-added event carrying the second payload for g1. -/
def groupEventB : HmIPEvent :=
  { pushEventType := .GROUP_ADDED, group := some groupB, device := none,
    home := none }

/-- A group-removed event for g1. -/
def groupRemoveEvent : HmIPEvent :=
  { pushEventType := .GROUP_REMOVED, group := some groupB, device := none,
    home := none }

/-- Keyed assignment stores the value at the key. -/
theorem mapGet_mapSet_self {α : Type} (m : List (String × α)) (k : String) (v : α) :
    mapGet (mapSet m k v) k = some v := by
  induction m with
  | nil => simp [mapSet, mapGet, List.find?]
  | cons p rest ih =>
      by_cases h : p.1 = k
      · simp [mapSet, mapGet, List.find?, h]
      · have hb : (p.1 == k) = false := beq_eq_false_iff_ne.mpr h
        simpa [mapSet, mapGet, List.find?, hb] using ih

/-- Keyed deletion leaves no value at the key. -/
theorem mapGet_mapDelete_self {α : Type} (m : List (String × α)) (k : String) :
    mapGet (mapDelete m k) k = none := by
  induction m with
  | nil => simp [mapDelete, mapGet, List.find?]
  | cons p rest ih =>
      by_cases h : p.1 = k
      · simp only [mapDelete, List.filter] at ih ⊢
        simp [h, ih]
      · have hb : (p.1 == k) = false := beq_eq_false_iff_ne.mpr h
        simp only [mapDelete, List.filter] at ih ⊢
        simp [mapGet, List.find?, hb, bne, ih]

/-- Every entry of a keyed assignment is the new pair or an old entry. -/
theorem mem_mapSet {α : Type} {m : List (String × α)} {k : String} {v : α}
    {e : String × α} (h : e ∈ mapSet m k v) : e = (k, v) ∨ e ∈ m := by
  induction m with
  | nil => simpa [mapSet] using h
  | cons p rest ih =>
      by_cases hp : (p.1 == k) = true
      · simp only [mapSet, if_pos hp, List.mem_cons] at h
        rcases h with h | h
        · exact Or.inl h
        · exact Or.inr (List.mem_cons_of_mem _ h)
      · simp only [mapSet, if_neg hp, List.mem_cons] at h
        rcases h with h | h
        · exact Or.inr (by simp [h])
        · rcases ih h with h2 | h2
          · exact Or.inl h2
          · exact Or.inr (List.mem_cons_of_mem _ h2)

/-- Every key of a keyed assignment is the new key or an old key. -/
theorem mem_keys_mapSet {α : Type} {m : List (String × α)} {k : String} {v : α}
    {x : String} (h : x ∈ (mapSet m k v).map Prod.fst) :
    x = k ∨ x ∈ m.map Prod.fst := by
  rcases List.mem_map.mp h with ⟨e, he, hx⟩
  rcases mem_mapSet he with h2 | h2
  · exact Or.inl (by rw [← hx, h2])
  · exact Or.inr (List.mem_map.mpr ⟨e, h2, hx⟩)

/-- Keyed assignment preserves key uniqueness. -/
theorem keys_mapSet_nodup {α : Type} {m : List (String × α)} {k : String} {v : α}
    (h : (m.map Prod.fst).Nodup) : ((mapSet m k v).map Prod.fst).Nodup := by
  induction m with
  | nil => simp [mapSet]
  | cons p rest ih =>
      rcases List.nodup_cons.mp h with ⟨hp, hrest⟩
      by_cases hpk : (p.1 == k) = true
      · have hk : p.1 = k := beq_iff_eq.mp hpk
        subst hk
        simpa [mapSet] using h
      · have hk : p.1 ≠ k := by
          intro hc
          exact hpk (beq_iff_eq.mpr hc)
        have hmem : p.1 ∉ (mapSet rest k v).map Prod.fst := by
          intro hc
          rcases mem_keys_mapSet hc with h2 | h2
          · exact hk h2
          · exact hp h2
        have : ((mapSet (p :: rest) k v).map Prod.fst)
            = p.1 :: (mapSet rest k v).map Prod.fst := by
          simp [mapSet, hk]
        rw [this]
        exact List.nodup_cons.mpr ⟨hmem, ih hrest⟩

/-- The accessory identity derivation is injective. -/
theorem uuidGenerate_injective : Function.Injective uuidGenerate := by
  intro a b h
  have h2 := congrArg String.data h
  simp only [uuidGenerate, String.data_append] at h2
  exact String.ext (List.append_cancel_left h2)

/-- A cache lookup only returns an accessory with the looked-up UUID. -/
theorem getAccessory_uuid {l : List PlatformAccessory} {u : String}
    {a : PlatformAccessory} (h : getAccessory l u = some a) : a.UUID = u := by
  unfold getAccessory at h
  have hp := List.find?_some h
  simpa using hp

/-- After replacing the cached accessory for a UUID, looking that UUID
up returns the replacement. -/
theorem getAccessory_map_replace {l : List PlatformAccessory} {u : String}
    {a a2 : PlatformAccessory} (ha2 : a2.UUID = u) (h : getAccessory l u = some a) :
    getAccessory (l.map (fun b => if b.UUID == u then a2 else b)) u = some a2 := by
  induction l with
  | nil => simp [getAccessory, List.find?] at h
  | cons b rest ih =>
      by_cases hb : (b.UUID == u) = true
      · simp [getAccessory, List.find?, hb, ha2]
      · have hb3 : ¬((fun x : PlatformAccessory => x.UUID == u) b = true) := hb
        unfold getAccessory at h
        rw [List.find?_cons_of_neg rest hb3] at h
        have hrec := ih h
        simp only [getAccessory] at hrec
        unfold getAccessory
        rw [List.map_cons]
        rw [List.find?_cons_of_neg]
        · exact hrec
        · show ¬((if (b.UUID == u) = true then a2 else b).UUID == u) = true
          rw [if_neg hb]
          exact hb

/-- Accessory resolution does not touch the device binding table. -/
theorem createAccessory_deviceMap (s : PlatformState) (uuid displayName : String)
    (deviceContext : HmIPDevice) :
    (createAccessory s uuid displayName deviceContext).1.deviceMap = s.deviceMap := by
  unfold createAccessory
  split <;> rfl

/-- Accessory resolution does not touch the group store. -/
theorem createAccessory_groups (s : PlatformState) (uuid displayName : String)
    (deviceContext : HmIPDevice) :
    (createAccessory s uuid displayName deviceContext).1.groups = s.groups := by
  unfold createAccessory
  split <;> rfl

/-- Accessory resolution does not touch the platform home field. -/
theorem createAccessory_home (s : PlatformState) (uuid displayName : String)
    (deviceContext : HmIPDevice) :
    (createAccessory s uuid displayName deviceContext).1.home = s.home := by
  unfold createAccessory
  split <;> rfl

/-- The accessory returned by resolution bears the requested UUID. -/
theorem createAccessory_accessory_uuid (s : PlatformState) (uuid displayName : String)
    (deviceContext : HmIPDevice) :
    (createAccessory s uuid displayName deviceContext).2.1.accessory.UUID = uuid := by
  unfold createAccessory
  split
  · next a heq => simpa using getAccessory_uuid heq
  · rfl

/-- Accessory resolution performs no registration or unregistration. -/
theorem createAccessory_no_reg_calls (s : PlatformState) (uuid displayName : String)
    (deviceContext : HmIPDevice) :
    registerCalls (createAccessory s uuid displayName deviceContext).2.2 = [] ∧
    unregCalls (createAccessory s uuid displayName deviceContext).2.2 = [] := by
  unfold createAccessory
  split <;> simp [registerCalls, unregCalls]

/-- updateAccessory either leaves the binding table unchanged or
upserts one handle wrapping the accessory derived from the id. -/
theorem updateAccessory_deviceMap_cases (s : PlatformState) (id : String)
    (home : Option HmIPHome) (device : HmIPDevice) :
    (updateAccessory s id home device).1.deviceMap = s.deviceMap ∨
    ∃ hb : BoundDevice, hb.accessory.UUID = uuidGenerate id ∧
      (updateAccessory s id home device).1.deviceMap = mapSet s.deviceMap id hb := by
  have huuid := createAccessory_accessory_uuid s (uuidGenerate id) device.label device
  have hdm := createAccessory_deviceMap s (uuidGenerate id) device.label device
  by_cases h1 : (device.type == "WALL_MOUNTED_THERMOSTAT_PRO") = true
  · refine Or.inr ⟨⟨.thermostat, home,
        (createAccessory s (uuidGenerate id) device.label device).2.1.accessory⟩, huuid, ?_⟩
    simp [updateAccessory, h1, hdm]
  by_cases h2 : (device.type == "FULL_FLUSH_SHUTTER") = true
  · refine Or.inr ⟨⟨.shutter, home,
        (createAccessory s (uuidGenerate id) device.label device).2.1.accessory⟩, huuid, ?_⟩
    simp [updateAccessory, h1, h2, hdm]
  by_cases h3 : (device.type == "HOME_CONTROL_ACCESS_POINT") = true
  · refine Or.inr ⟨⟨.accessPoint, home,
        (createAccessory s (uuidGenerate id) device.label device).2.1.accessory⟩, huuid, ?_⟩
    simp [updateAccessory, h1, h2, h3, hdm]
  · exact Or.inl (by simp [updateAccessory, h1, h2, h3, hdm])

/-- Upserting a handle whose accessory UUID is derived from its key
preserves the binding table invariant. -/
theorem dmapInv_mapSet {dm : List (String × BoundDevice)} {k : String}
    {hb : BoundDevice} (hinv : dmapInv dm)
    (hhb : hb.accessory.UUID = uuidGenerate k) : dmapInv (mapSet dm k hb) := by
  refine ⟨keys_mapSet_nodup hinv.1, ?_⟩
  intro e he
  rcases mem_mapSet he with h | h
  · rw [h]
    exact hhb
  · exact hinv.2 e h

/-- Deleting a key preserves the binding table invariant. -/
theorem dmapInv_mapDelete {dm : List (String × BoundDevice)} (k : String)
    (hinv : dmapInv dm) : dmapInv (mapDelete dm k) := by
  refine ⟨?_, ?_⟩
  · exact hinv.1.sublist ((List.filter_sublist dm).map Prod.fst)
  · intro e he
    exact hinv.2 e (List.mem_of_mem_filter he)

/-- Reassigning every handle's home reference preserves the binding
table invariant. -/
theorem dmapInv_map_home {dm : List (String × BoundDevice)} (h2 : HmIPHome)
    (hinv : dmapInv dm) :
    dmapInv (dm.map (fun e => (e.1, { e.2 with home := some h2 }))) := by
  constructor
  · have : (dm.map (fun e => (e.1, { e.2 with home := some h2 }))).map Prod.fst
        = dm.map Prod.fst := by
      simp [List.map_map]
    rw [this]
    exact hinv.1
  · intro e he
    rcases List.mem_map.mp he with ⟨x, hx, hxe⟩
    rw [← hxe]
    exact hinv.2 x hx

/-- updateAccessory preserves the binding table invariant. -/
theorem updateAccessory_dmapInv {s : PlatformState} (id : String)
    (home : Option HmIPHome) (device : HmIPDevice) (hinv : dmapInv s.deviceMap) :
    dmapInv (updateAccessory s id home device).1.deviceMap := by
  rcases updateAccessory_deviceMap_cases s id home device with h | ⟨hb, hhb, h⟩
  · rw [h]
    exact hinv
  · rw [h]
    exact dmapInv_mapSet hinv hhb

/-- The snapshot device loop preserves the binding table invariant. -/
theorem updateAccessories_dmapInv (devs : List (String × HmIPDevice)) :
    ∀ s : PlatformState, dmapInv s.deviceMap →
      dmapInv (updateAccessories s devs).1.deviceMap := by
  induction devs with
  | nil =>
      intro s hinv
      exact hinv
  | cons p rest ih =>
      obtain ⟨id, device⟩ := p
      intro s hinv
      simp only [updateAccessories]
      exact ih _ (updateAccessory_dmapInv id s.home device hinv)

/-- The notification handler preserves the binding table invariant. -/
theorem handleEvent_dmapInv (r : ReconState) (e : HmIPEvent)
    (hinv : dmapInv r.platform.deviceMap) :
    dmapInv (handleEvent r e).1.platform.deviceMap := by
  unfold handleEvent
  rcases e with ⟨ty, g, dv, h⟩
  cases ty <;> simp only
  case GROUP_CHANGED => cases g <;> simpa using hinv
  case GROUP_ADDED => cases g <;> simpa using hinv
  case GROUP_REMOVED => cases g <;> simpa using hinv
  case DEVICE_REMOVED =>
      cases dv with
      | none => exact hinv
      | some d =>
          cases hget : mapGet r.platform.deviceMap d.id with
          | none => simpa [hget] using hinv
          | some hb => simpa [hget] using dmapInv_mapDelete d.id hinv
  case DEVICE_CHANGED =>
      cases dv with
      | none => exact hinv
      | some d =>
          cases hget : mapGet r.platform.deviceMap d.id <;> simpa [hget] using hinv
  case DEVICE_ADDED =>
      cases dv with
      | none => exact hinv
      | some d =>
          cases hget : mapGet r.platform.deviceMap d.id <;> simpa [hget] using hinv
  case HOME_CHANGED =>
      cases h with
      | none => exact hinv
      | some hm => simpa using dmapInv_map_home (setHome hm) hinv
  case other => exact hinv

/-- The event loop preserves the binding table invariant. -/
theorem handleEvents_dmapInv (evts : List HmIPEvent) :
    ∀ r : ReconState, dmapInv r.platform.deviceMap →
      dmapInv (handleEvents r evts).1.platform.deviceMap := by
  induction evts with
  | nil =>
      intro r hinv
      exact hinv
  | cons e rest ih =>
      intro r hinv
      simp only [handleEvents]
      exact ih _ (handleEvent_dmapInv r e hinv)

/-- Restoring cached accessories touches neither the binding table nor
the group store nor the home field. -/
theorem restoredPlatform_fields (cached : List PlatformAccessory) :
    (restoredPlatform cached).deviceMap = [] ∧
    (restoredPlatform cached).groups = [] ∧
    (restoredPlatform cached).home = none := by
  have key : ∀ (l : List PlatformAccessory) (s : PlatformState),
      (l.foldl (fun s a => (configureAccessory s a).1) s).deviceMap = s.deviceMap ∧
      (l.foldl (fun s a => (configureAccessory s a).1) s).groups = s.groups ∧
      (l.foldl (fun s a => (configureAccessory s a).1) s).home = s.home := by
    intro l
    induction l with
    | nil =>
        intro s
        exact ⟨rfl, rfl, rfl⟩
    | cons a rest ih =>
        intro s
        have hstep : (configureAccessory s a).1.deviceMap = s.deviceMap ∧
            (configureAccessory s a).1.groups = s.groups ∧
            (configureAccessory s a).1.home = s.home := by
          unfold configureAccessory
          split <;> exact ⟨rfl, rfl, rfl⟩
        rcases ih (configureAccessory s a).1 with ⟨i1, i2, i3⟩
        rcases hstep with ⟨j1, j2, j3⟩
        exact ⟨by rw [List.foldl_cons] at *; rw [i1, j1],
               by rw [List.foldl_cons] at *; rw [i2, j2],
               by rw [List.foldl_cons] at *; rw [i3, j3]⟩
  exact key cached _

/-- On a cache hit, accessory resolution reduces to replacing the
cached entry and wrapping the updated accessory. -/
theorem createAccessory_found {s : PlatformState} {u : String} {a : PlatformAccessory}
    (n : String) (c : HmIPDevice) (hc : getAccessory s.accessories u = some a) :
    createAccessory s u n c =
      ({ s with accessories :=
           s.accessories.map (fun b => if b.UUID == u then { a with context := some c } else b) },
       { accessory := { a with context := some c }, isExisting := true }, []) := by
  unfold createAccessory
  rw [hc]

/-- Accessory resolution logs at most a debug line. -/
theorem createAccessory_effects (s : PlatformState) (u n : String) (c : HmIPDevice) :
    (createAccessory s u n c).2.2 = [] ∨ (createAccessory s u n c).2.2 = [Effect.debugPool] := by
  unfold createAccessory
  split
  · exact Or.inl rfl
  · exact Or.inr rfl

/-- A group-changed or group-added event with a group payload upserts
both group stores at the group id. -/
theorem group_upsert_stores (r : ReconState) (e : HmIPEvent) (g : HmIPGroup)
    (hty : e.pushEventType = PushEventType.GROUP_CHANGED ∨
           e.pushEventType = PushEventType.GROUP_ADDED)
    (hg : e.group = some g) :
    mapGet (handleEvent r e).1.platform.groups g.id = some g ∧
    mapGet (handleEvent r e).1.hmIPState.groups g.id = some g := by
  rcases hty with hty | hty <;>
    simp [handleEvent, hty, hg, mapGet_mapSet_self]

/-- A group-removed event with a group payload deletes the group id
from both group stores. -/
theorem group_remove_stores (r : ReconState) (e : HmIPEvent) (g : HmIPGroup)
    (hty : e.pushEventType = PushEventType.GROUP_REMOVED)
    (hg : e.group = some g) :
    mapGet (handleEvent r e).1.platform.groups g.id = none ∧
    mapGet (handleEvent r e).1.hmIPState.groups g.id = none := by
  simp [handleEvent, hty, hg, mapGet_mapDelete_self]

/-- C4: if session initialization fails, discoverDevices aborts with
the platform state untouched, no snapshot fetched, and an empty effect
trace, so no store mutation, no api call and no subscription occur. -/
theorem discoverDevices_init_failed_fail_closed (p : PlatformState)
    (snapshot : HmIPState) (msgs : List (List HmIPEvent)) :
    discoverDevices false p snapshot msgs = (p, none, []) := by
  simp [discoverDevices]

/-- C3: handling a device-removed event whose identity is bound removes
the identity from the device binding table and from the topology store
devices, and the trace holds exactly one unregistration call, for that
identity's accessory. -/
theorem deviceRemoved_known_removes_and_unregisters_once
    (r : ReconState) (e : HmIPEvent) (d : HmIPDevice) (hb : BoundDevice)
    (hty : e.pushEventType = PushEventType.DEVICE_REMOVED)
    (hdev : e.device = some d)
    (hknown : mapGet r.platform.deviceMap d.id = some hb) :
    mapGet (handleEvent r e).1.platform.deviceMap d.id = none ∧
    mapGet (handleEvent r e).1.hmIPState.devices d.id = none ∧
    unregCalls (handleEvent r e).2 = [hb.accessory] := by
  simp [handleEvent, hty, hdev, hknown, mapGet_mapDelete_self, unregCalls]

/-- The device-removed theorem evaluated on a concrete bound shutter. -/
theorem deviceRemoved_known_witness :
    mapGet (handleEvent sampleRecon removeEvent).1.platform.deviceMap "d1" = none ∧
    mapGet (handleEvent sampleRecon removeEvent).1.hmIPState.devices "d1" = none ∧
    unregCalls (handleEvent sampleRecon removeEvent).2 = [sampleAccessory] :=
  deviceRemoved_known_removes_and_unregisters_once sampleRecon removeEvent
    shutterDev sampleHandle rfl rfl (by decide)

/-- C5: a device-changed, device-added or device-removed event on an
identity absent from the device binding table mutates nothing, makes no
registration or unregistration call, and logs a device-not-found
warning. -/
theorem deviceEvent_unknown_id_frame
    (r : ReconState) (e : HmIPEvent) (d : HmIPDevice)
    (hty : e.pushEventType = PushEventType.DEVICE_REMOVED ∨
           e.pushEventType = PushEventType.DEVICE_CHANGED ∨
           e.pushEventType = PushEventType.DEVICE_ADDED)
    (hdev : e.device = some d)
    (hunknown : mapGet r.platform.deviceMap d.id = none) :
    (handleEvent r e).1 = r ∧
    registerCalls (handleEvent r e).2 = [] ∧
    unregCalls (handleEvent r e).2 = [] ∧
    Effect.warn ("Cannot find device: " ++ d.id) ∈ (handleEvent r e).2 := by
  rcases hty with hty | hty | hty <;>
    simp [handleEvent, hty, hdev, hunknown, registerCalls, unregCalls]

/-- The unknown-identity frame theorem evaluated on a concrete event. -/
theorem deviceEvent_unknown_id_frame_witness :
    (handleEvent sampleRecon changedEventUnknown).1 = sampleRecon ∧
    registerCalls (handleEvent sampleRecon changedEventUnknown).2 = [] ∧
    unregCalls (handleEvent sampleRecon changedEventUnknown).2 = [] ∧
    Effect.warn ("Cannot find device: " ++ "d2")
      ∈ (handleEvent sampleRecon changedEventUnknown).2 :=
  deviceEvent_unknown_id_frame sampleRecon changedEventUnknown unknownDev
    (Or.inr (Or.inl rfl)) rfl (by decide)

/-- C6: during the snapshot pass, a device whose declared type has no
behavior constructor is warned about and skipped: the binding table is
unchanged and no registration call is made. -/
theorem snapshot_unsupported_type_skipped
    (s : PlatformState) (id : String) (home : Option HmIPHome) (device : HmIPDevice)
    (h1 : device.type ≠ "WALL_MOUNTED_THERMOSTAT_PRO")
    (h2 : device.type ≠ "FULL_FLUSH_SHUTTER")
    (h3 : device.type ≠ "HOME_CONTROL_ACCESS_POINT") :
    (updateAccessory s id home device).1.deviceMap = s.deviceMap ∧
    registerCalls (updateAccessory s id home device).2 = [] ∧
    Effect.warn ("Device not implemented: " ++ device.modelType ++ " - " ++ device.label)
      ∈ (updateAccessory s id home device).2 := by
  have hdm := createAccessory_deviceMap s (uuidGenerate id) device.label device
  rcases createAccessory_effects s (uuidGenerate id) device.label device with he | he <;>
    simp [updateAccessory, h1, h2, h3, hdm, he, registerCalls, List.filterMap_cons]

/-- The unsupported-type skip theorem evaluated on a concrete device. -/
theorem snapshot_unsupported_type_skipped_witness :
    (updateAccessory emptyPlatform "d2" none unknownDev).1.deviceMap
      = emptyPlatform.deviceMap ∧
    registerCalls (updateAccessory emptyPlatform "d2" none unknownDev).2 = [] ∧
    Effect.warn ("Device not implemented: " ++ "HmIP-X" ++ " - " ++ "Lamp")
      ∈ (updateAccessory emptyPlatform "d2" none unknownDev).2 :=
  snapshot_unsupported_type_skipped emptyPlatform "d2" none unknownDev
    (by decide) (by decide) (by decide)

/-- C10: even when the device type is unsupported and the device is
skipped, the accessory for its identity is resolved first, so the
cached accessory's stored device context is overwritten with the
skipped device's payload, while the binding table stays unchanged and
nothing is registered. -/
theorem snapshot_unsupported_type_overwrites_cached_context
    (s : PlatformState) (id : String) (home : Option HmIPHome) (device : HmIPDevice)
    (a : PlatformAccessory)
    (h1 : device.type ≠ "WALL_MOUNTED_THERMOSTAT_PRO")
    (h2 : device.type ≠ "FULL_FLUSH_SHUTTER")
    (h3 : device.type ≠ "HOME_CONTROL_ACCESS_POINT")
    (hc : getAccessory s.accessories (uuidGenerate id) = some a) :
    (updateAccessory s id home device).1.deviceMap = s.deviceMap ∧
    registerCalls (updateAccessory s id home device).2 = [] ∧
    getAccessory (updateAccessory s id home device).1.accessories (uuidGenerate id)
      = some { a with context := some device } := by
  have hu : a.UUID = uuidGenerate id := getAccessory_uuid hc
  have ha2 : ({ a with context := some device } : PlatformAccessory).UUID
      = uuidGenerate id := hu
  have hrepl := getAccessory_map_replace ha2 hc
  have hfound := createAccessory_found device.label device hc
  simp [updateAccessory, h1, h2, h3, hfound, registerCalls, List.filterMap_cons]
  simpa using hrepl

/-- The cache-overwrite theorem evaluated on a concrete cached lamp. -/
theorem snapshot_unsupported_type_overwrites_cached_context_witness :
    (updateAccessory c10Platform "d2" none unknownDev).1.deviceMap
      = c10Platform.deviceMap ∧
    registerCalls (updateAccessory c10Platform "d2" none unknownDev).2 = [] ∧
    getAccessory (updateAccessory c10Platform "d2" none unknownDev).1.accessories
      (uuidGenerate "d2") = some { c10Acc with context := some unknownDev } :=
  snapshot_unsupported_type_overwrites_cached_context c10Platform "d2" none unknownDev
    c10Acc (by decide) (by decide) (by decide) (by decide)

/-- C7: starting from the restored platform, after the snapshot pass
and any sequence of notifications, the device binding table has at
most one entry per device identity, every entry wraps the accessory
whose identity is derived from its device identity, and no two entries
share an accessory identity. -/
theorem bindingTable_accessory_identities_unique
    (cached : List PlatformAccessory) (snap : HmIPState) (evts : List HmIPEvent) :
    ((handleEvents (snapshotPass (restoredPlatform cached) snap).1 evts).1.platform.deviceMap.map
        Prod.fst).Nodup ∧
    (∀ e ∈ (handleEvents (snapshotPass (restoredPlatform cached) snap).1 evts).1.platform.deviceMap,
        e.2.accessory.UUID = uuidGenerate e.1) ∧
    ((handleEvents (snapshotPass (restoredPlatform cached) snap).1 evts).1.platform.deviceMap.map
        (fun e => e.2.accessory.UUID)).Nodup := by
  have h0 : dmapInv (restoredPlatform cached).deviceMap := by
    rw [(restoredPlatform_fields cached).1]
    exact ⟨List.nodup_nil, by intro e he; cases he⟩
  have h1 : dmapInv (snapshotPass (restoredPlatform cached) snap).1.platform.deviceMap := by
    simp only [snapshotPass]
    exact updateAccessories_dmapInv _ _ h0
  have h2 := handleEvents_dmapInv evts _ h1
  refine ⟨h2.1, h2.2, ?_⟩
  have hmaps : ((handleEvents (snapshotPass (restoredPlatform cached) snap).1
        evts).1.platform.deviceMap.map (fun e => e.2.accessory.UUID))
      = ((handleEvents (snapshotPass (restoredPlatform cached) snap).1
        evts).1.platform.deviceMap.map Prod.fst).map uuidGenerate := by
    rw [List.map_map]
    exact List.map_congr_left h2.2
  rw [hmaps]
  exact h2.1.map uuidGenerate_injective

/-- The uniqueness theorem evaluated after a concrete snapshot pass,
with its entry-wise conjunct discharged at the concrete bound entry. -/
theorem bindingTable_accessory_identities_unique_witness :
    ((handleEvents (snapshotPass (restoredPlatform []) sampleSnapshot).1
        []).1.platform.deviceMap.map Prod.fst).Nodup ∧
    ((handleEvents (snapshotPass (restoredPlatform []) sampleSnapshot).1
        []).1.platform.deviceMap.map (fun e => e.2.accessory.UUID)).Nodup ∧
    ({ kind := BehaviorKind.shutter, home := none,
       accessory := { displayName := "Shutter", UUID := uuidGenerate "d1",
                      context := some shutterDev } } : BoundDevice).accessory.UUID
      = uuidGenerate "d1" :=
  ⟨(bindingTable_accessory_identities_unique [] sampleSnapshot []).1,
   (bindingTable_accessory_identities_unique [] sampleSnapshot []).2.2,
   (bindingTable_accessory_identities_unique [] sampleSnapshot []).2.1
     ("d1", { kind := BehaviorKind.shutter, home := none,
              accessory := { displayName := "Shutter", UUID := uuidGenerate "d1",
                             context := some shutterDev } })
     (by decide)⟩

/-- C8 counterexample: resolving a fresh identity twice with different
device contexts constructs two distinct accessory objects, the first
still storing the first context, so resolution is not idempotent on
identities absent from the restored cache. -/
theorem createAccessory_fresh_twice_two_accessories :
    (createAccessory (createAccessory emptyPlatform "u1" "Lamp" ctxA).1
        "u1" "Lamp" ctxB).2.1.isExisting = false ∧
    (createAccessory emptyPlatform "u1" "Lamp" ctxA).2.1.accessory.context = some ctxA ∧
    (createAccessory (createAccessory emptyPlatform "u1" "Lamp" ctxA).1
        "u1" "Lamp" ctxB).2.1.accessory.context = some ctxB ∧
    ctxA ≠ ctxB ∧
    getAccessory (createAccessory (createAccessory emptyPlatform "u1" "Lamp" ctxA).1
        "u1" "Lamp" ctxB).1.accessories "u1" = none := by
  decide

/-- C8 amended: for an identity present in the restored cache,
resolving twice with different contexts reuses the single cached
accessory, leaves it storing the latest context, reports it
pre-existing both times, and neither resolution registers or
unregisters anything. -/
theorem createAccessory_idempotent_when_cached
    (s : PlatformState) (u n1 n2 : String) (c1 c2 : HmIPDevice) (a : PlatformAccessory)
    (hc : getAccessory s.accessories u = some a) :
    (createAccessory s u n1 c1).2.1.isExisting = true ∧
    (createAccessory (createAccessory s u n1 c1).1 u n2 c2).2.1.isExisting = true ∧
    (createAccessory (createAccessory s u n1 c1).1 u n2 c2).2.1.accessory
      = { a with context := some c2 } ∧
    getAccessory (createAccessory (createAccessory s u n1 c1).1 u n2 c2).1.accessories u
      = some { a with context := some c2 } ∧
    registerCalls ((createAccessory s u n1 c1).2.2
      ++ (createAccessory (createAccessory s u n1 c1).1 u n2 c2).2.2) = [] ∧
    unregCalls ((createAccessory s u n1 c1).2.2
      ++ (createAccessory (createAccessory s u n1 c1).1 u n2 c2).2.2) = [] := by
  have hu : a.UUID = u := getAccessory_uuid hc
  have ha1 : ({ a with context := some c1 } : PlatformAccessory).UUID = u := hu
  have hfound1 := createAccessory_found n1 c1 hc
  have hc1 : getAccessory (createAccessory s u n1 c1).1.accessories u
      = some { a with context := some c1 } := by
    rw [hfound1]
    exact getAccessory_map_replace ha1 hc
  have hfound2 := createAccessory_found n2 c2 hc1
  have ha2 : ({ { a with context := some c1 } with context := some c2 } :
      PlatformAccessory).UUID = u := hu
  have hrepl2 := getAccessory_map_replace ha2 hc1
  refine ⟨by rw [hfound1], by rw [hfound2], by rw [hfound2], ?_, ?_, ?_⟩
  · rw [hfound2]
    exact hrepl2
  · rw [hfound2, hfound1]
    simp [registerCalls]
  · rw [hfound2, hfound1]
    simp [unregCalls]

/-- The cached-idempotence theorem evaluated on a concrete cache. -/
theorem createAccessory_idempotent_when_cached_witness :
    (createAccessory cachedPlatform "u1" "N1" ctxA).2.1.isExisting = true ∧
    (createAccessory (createAccessory cachedPlatform "u1" "N1" ctxA).1
        "u1" "N2" ctxB).2.1.isExisting = true ∧
    (createAccessory (createAccessory cachedPlatform "u1" "N1" ctxA).1
        "u1" "N2" ctxB).2.1.accessory = { cachedAcc with context := some ctxB } ∧
    getAccessory (createAccessory (createAccessory cachedPlatform "u1" "N1" ctxA).1
        "u1" "N2" ctxB).1.accessories "u1"
      = some { cachedAcc with context := some ctxB } ∧
    registerCalls ((createAccessory cachedPlatform "u1" "N1" ctxA).2.2
      ++ (createAccessory (createAccessory cachedPlatform "u1" "N1" ctxA).1
            "u1" "N2" ctxB).2.2) = [] ∧
    unregCalls ((createAccessory cachedPlatform "u1" "N1" ctxA).2.2
      ++ (createAccessory (createAccessory cachedPlatform "u1" "N1" ctxA).1
            "u1" "N2" ctxB).2.2) = [] :=
  createAccessory_idempotent_when_cached cachedPlatform "u1" "N1" "N2" ctxA ctxB
    cachedAcc (by decide)

/-- C9: group-changed and group-added events with a group payload
upsert both group stores at the group identity; two sequential such
events for one identity leave the stores holding only the second
payload; a group-removed event with a group payload deletes the
identity from both stores. -/
theorem group_events_upsert_lww_and_delete :
    (∀ (r : ReconState) (e : HmIPEvent) (g : HmIPGroup),
       (e.pushEventType = PushEventType.GROUP_CHANGED ∨
        e.pushEventType = PushEventType.GROUP_ADDED) →
       e.group = some g →
       mapGet (handleEvent r e).1.platform.groups g.id = some g ∧
       mapGet (handleEvent r e).1.hmIPState.groups g.id = some g) ∧
    (∀ (r : ReconState) (e1 e2 : HmIPEvent) (g1 g2 : HmIPGroup),
       (e1.pushEventType = PushEventType.GROUP_CHANGED ∨
        e1.pushEventType = PushEventType.GROUP_ADDED) →
       (e2.pushEventType = PushEventType.GROUP_CHANGED ∨
        e2.pushEventType = PushEventType.GROUP_ADDED) →
       e1.group = some g1 → e2.group = some g2 → g1.id = g2.id →
       mapGet (handleEvents r [e1, e2]).1.platform.groups g2.id = some g2 ∧
       mapGet (handleEvents r [e1, e2]).1.hmIPState.groups g2.id = some g2) ∧
    (∀ (r : ReconState) (e : HmIPEvent) (g : HmIPGroup),
       e.pushEventType = PushEventType.GROUP_REMOVED → e.group = some g →
       mapGet (handleEvent r e).1.platform.groups g.id = none ∧
       mapGet (handleEvent r e).1.hmIPState.groups g.id = none) := by
  refine ⟨group_upsert_stores, ?_, group_remove_stores⟩
  intro r e1 e2 g1 g2 hty1 hty2 hg1 hg2 hid
  have step := group_upsert_stores (handleEvent r e1).1 e2 g2 hty2 hg2
  simpa [handleEvents] using step

/-- The group-event theorem evaluated on concrete payloads. -/
theorem group_events_upsert_lww_and_delete_witness :
    (mapGet (handleEvent sampleRecon groupEventA).1.platform.groups "g1" = some groupA ∧
     mapGet (handleEvent sampleRecon groupEventA).1.hmIPState.groups "g1" = some groupA) ∧
    (mapGet (handleEvents sampleRecon [groupEventA, groupEventB]).1.platform.groups "g1"
        = some groupB ∧
     mapGet (handleEvents sampleRecon [groupEventA, groupEventB]).1.hmIPState.groups "g1"
        = some groupB) ∧
    (mapGet (handleEvent sampleRecon groupRemoveEvent).1.platform.groups "g1" = none ∧
     mapGet (handleEvent sampleRecon groupRemoveEvent).1.hmIPState.groups "g1" = none) :=
  ⟨group_events_upsert_lww_and_delete.1 sampleRecon groupEventA groupA
      (Or.inr rfl) rfl,
   group_events_upsert_lww_and_delete.2.1 sampleRecon groupEventA groupEventB
      groupA groupB (Or.inr rfl) (Or.inr rfl) rfl rfl rfl,
   group_events_upsert_lww_and_delete.2.2 sampleRecon groupRemoveEvent groupB
      rfl rfl⟩

/-- C1 evaluated at a home-changed event with access-point version 2.0
against a state with one bound device: the event home is normalized and
each bound handle's stored home reference becomes that normalized home,
but the platform home field stays unassigned, the topology store home
is untouched, and the single update dispatch to the bound device passes
the handle itself in the home position and the group store in the
device position, carrying no home argument. -/
theorem homeChanged_keeps_home_unassigned_and_dispatch_carries_handle :
    (handleEvent sampleRecon homeChangedEvent).1.platform.home = none ∧
    (handleEvent sampleRecon homeChangedEvent).1.hmIPState.home = snapHome ∧
    mapGet (handleEvent sampleRecon homeChangedEvent).1.platform.deviceMap "d1"
      = some { sampleHandle with home := some (setHome homeV2) } ∧
    (setHome homeV2).firmwareVersion = "2.0" ∧
    (handleEvent sampleRecon homeChangedEvent).2
      = [Effect.debugHomeChanged homeV2,
         Effect.updateDispatch "d1" { sampleHandle with home := some (setHome homeV2) }
           [UpdateArg.handleArg { sampleHandle with home := some (setHome homeV2) },
            UpdateArg.groupsArg []]] := by
  decide

/-- C2 evaluated at a snapshot holding one supported shutter device:
the device is bound into the binding table keyed by its identity and
its accessory is registered, but the bound handle carries the platform
home field, which was never assigned, rather than the normalized
snapshot home held by the topology store. -/
theorem snapshot_binds_with_unassigned_home :
    mapGet (snapshotPass (restoredPlatform []) sampleSnapshot).1.platform.deviceMap "d1"
      = some { kind := .shutter, home := none,
               accessory := { displayName := "Shutter", UUID := uuidGenerate "d1",
                              context := some shutterDev } } ∧
    (snapshotPass (restoredPlatform []) sampleSnapshot).1.hmIPState.home
      = setHome snapHome ∧
    (setHome snapHome).firmwareVersion = "1.0" ∧
    registerCalls (snapshotPass (restoredPlatform []) sampleSnapshot).2
      = [{ displayName := "Shutter", UUID := uuidGenerate "d1",
           context := some shutterDev }] := by
  decide

end HmIP
